import Mathlib

/-!
Shallow embedding of the `integratecpp` facade, translated from
`inst/include/integratecpp.h`.

The embedding covers:
* the data model (`integrator::return_type`, `integrator::config_type`,
  the exception hierarchy),
* the validation helpers `throw_if_invalid_config` and
  `throw_if_invalid_bounds` from `integrator::operator()`,
* the callback bridge (`integrand_callback` / `guarded_transform`),
* the dispatch between `Rdqags` (finite bounds) and `Rdqagi`
  (`translate_bounds`),
* the status-code translation `throw_if_error`,
* the configuration accessors and setters of `integrator`.

Modelling decisions:
* A C++ `double` is modelled by `RDouble`: a finite value carried as an
  exact rational, one of the two infinities, or NaN.  Comparisons follow
  IEEE-754 semantics (every comparison involving NaN is false).  The set
  of finite doubles is a subset of the rationals, so universally
  quantified theorems over `RDouble` cover all double inputs, and all
  concrete inputs used below are exactly representable doubles.
* C++ `int` is modelled by `Int`; the source never relies on wrap-around
  (signed overflow would be undefined behaviour), so the embedding uses
  unbounded integers, which is faithful for every UB-free execution.
* The numeric kernel (`Rdqags`/`Rdqagi` from `src/appl/integrate.c` of R)
  is an external collaborator.  It is modelled as an oracle mapping the
  kernel call actually issued to (a) the batches of points at which it
  invokes the callback and (b) the five numeric outputs it reports.
  All theorems quantify over this oracle.
* Exceptions become `Except`; the C++ exception objects thrown by the
  header become the constructors of `EvalError`.  A user-thrown
  `std::exception` that is not `std::bad_alloc` is identified by a `Nat`
  tag so that "the same exception is rethrown" is expressible.
* `assert(error_code < 6)` in `throw_if_error` is a no-op in `NDEBUG`
  builds (the R package default); the embedding models the `NDEBUG`
  semantics, in which control reaches the final `else` branch.
-/

namespace Integratecpp

/-- Model of a C++ `double`: a finite value (an exact rational), one of
the two infinities, or NaN. -/
inductive RDouble : Type
| finD (q : ℚ)
| posInf
| negInf
| nan
deriving DecidableEq, Repr

/-- Model of `std::isfinite`. -/
def RDouble.isFinite : RDouble → Bool
| .finD _ => true
| _ => false

/-- Model of `std::isnan`. -/
def RDouble.isNaN : RDouble → Bool
| .nan => true
| _ => false

/-- IEEE-754 `<` on doubles: false whenever an operand is NaN. -/
def RDouble.lt : RDouble → RDouble → Bool
| .nan, _ => false
| _, .nan => false
| .negInf, .negInf => false
| .negInf, _ => true
| _, .negInf => false
| .posInf, _ => false
| .finD _, .posInf => true
| .finD a, .finD b => decide (a < b)

/-- IEEE-754 `<=` on doubles: false whenever an operand is NaN. -/
def RDouble.le : RDouble → RDouble → Bool
| .nan, _ => false
| _, .nan => false
| .negInf, _ => true
| _, .negInf => false
| _, .posInf => true
| .posInf, _ => false
| .finD a, .finD b => decide (a ≤ b)

/-- Structure `integrator::return_type`: approximated value, estimated
absolute error, final number of subdivisions, number of function
evaluations. -/
structure return_type where
  value : RDouble
  absolute_error : RDouble
  subdivisions : Int
  neval : Int
deriving DecidableEq, Repr

/-- Value-initialisation `return_type{}`: `return_type` is trivial, so
`{}` zero-initialises every field. -/
def zero_return : return_type := ⟨.finD 0, .finD 0, 0, 0⟩

/-- Structure `integrator::config_type` with its four parameters. -/
structure config_type where
  max_subdivisions : Int
  relative_accuracy : RDouble
  absolute_accuracy : RDouble
  work_size : Int
deriving DecidableEq, Repr

/-- Value of `std::numeric_limits<double>::epsilon()`, i.e. `2⁻⁵²`,
written in reduced form so that the kernel can evaluate comparisons. -/
def machine_epsilon : ℚ := ⟨1, 2 ^ 52, by norm_num, by norm_num⟩

/-- Default relative accuracy
`std::pow(std::numeric_limits<double>::epsilon(), 0.25)`, which is
exactly `2⁻¹³ = 0.0001220703125` (the value noted in the header). -/
def default_accuracy : ℚ := ⟨1, 2 ^ 13, by norm_num, by norm_num⟩

/-- Default `config_type`: `max_subdivisions = 100`,
`relative_accuracy = absolute_accuracy = eps^0.25`, `work_size = 400`. -/
def default_config : config_type :=
  ⟨100, .finD default_accuracy, .finD default_accuracy, 400⟩

/-- Value of `std::max(50. * std::numeric_limits<double>::epsilon(),
0.5e-28)` appearing in the configuration check.  Since
`50·2⁻⁵² ≈ 1.11e-14` dominates `0.5e-28` by fourteen orders of
magnitude, the maximum equals `50·2⁻⁵² = 25·2⁻⁵¹` for every rounding
of the literal `0.5e-28`; the constant is written in reduced form so
the kernel can evaluate comparisons.  `accuracy_threshold_eq` below
ties it to the source expression. -/
def accuracy_threshold : ℚ := ⟨25, 2 ^ 51, by norm_num, by norm_num⟩

/-- Exceptions a user-supplied `Callable` may throw during one
evaluation, as distinguished by the catch clauses of
`guarded_transform`: a `std::exception` that is not `std::bad_alloc`
(identified by a tag), `std::bad_alloc`, or anything else. -/
inductive UserThrow
| stdExc (tag : Nat)
| badAlloc
| otherThrow
deriving DecidableEq, Repr

/-- Content of the deferred-failure slot `std::exception_ptr e_ptr`:
the original user exception stored by `std::current_exception()`, the
substitute `integration_runtime_error("Unknown error")`, or the
`integration_runtime_error("non-finite function value")`. -/
inductive CapturedError
| rethrown (tag : Nat)
| unknownCapture
| nonFiniteCapture
deriving DecidableEq, Repr

def msg_unknown_error : String := "Unknown error"

def msg_non_finite : String := "non-finite function value"

def msg_invalid_input : String := "the input is invalid"

def msg_defensive : String :=
  "invalid argument errors should be caught during initialization"

def msg_max_subdivision : String := "maximum number of subdivisions reached"

def msg_roundoff : String := "roundoff error was detected"

def msg_bad_integrand : String := "extremely bad integrand behaviour"

def msg_extrapolation : String :=
  "roundoff error is detected in the extrapolation table"

def msg_divergence : String := "the integral is probably divergent"

/-- Exceptions that can escape `integrator::operator()`:
the `integratecpp` hierarchy (`invalid_input_error`, the five typed
runtime errors, plain `integration_runtime_error`), a rethrown user
exception, a plain `std::logic_error` (the defensive branch of
`throw_if_error`), and a propagated `std::bad_alloc`. -/
inductive EvalError
| invalid_input (msg : String) (result : return_type)
| max_subdivision (msg : String) (result : return_type)
| roundoff (msg : String) (result : return_type)
| bad_integrand (msg : String) (result : return_type)
| extrapolation_roundoff (msg : String) (result : return_type)
| divergence (msg : String) (result : return_type)
| runtime_err (msg : String) (result : return_type)
| user_exception (tag : Nat)
| std_logic_error (msg : String)
| bad_alloc_error
deriving DecidableEq, Repr

/-- Model of the `result()` accessor: classes deriving from
`integration_runtime_error` or `integration_logic_error` expose the
stored `return_type`; a rethrown user exception, a plain
`std::logic_error` and `std::bad_alloc` have no such accessor. -/
def result_of : EvalError → Option return_type
| .invalid_input _ r => some r
| .max_subdivision _ r => some r
| .roundoff _ r => some r
| .bad_integrand _ r => some r
| .extrapolation_roundoff _ r => some r
| .divergence _ r => some r
| .runtime_err _ r => some r
| .user_exception _ => none
| .std_logic_error _ => none
| .bad_alloc_error => none

/-- Lambda `throw_if_invalid_config` in `integrator::operator()`.
`invalid_input_error` is constructed through the inherited
single-argument constructor, so its stored result is the
value-initialised (zeroed) `return_type`. -/
def throw_if_invalid_config (config : config_type) : Except EvalError Unit :=
  if config.max_subdivisions ≤ 0 then
    .error (.invalid_input msg_invalid_input zero_return)
  else if RDouble.le config.absolute_accuracy (.finD 0) &&
      RDouble.lt config.relative_accuracy (.finD accuracy_threshold) then
    .error (.invalid_input msg_invalid_input zero_return)
  else if config.work_size < 4 * config.max_subdivisions then
    .error (.invalid_input msg_invalid_input zero_return)
  else
    .ok ()

/-- Lambda `throw_if_invalid_bounds` in `integrator::operator()`. -/
def throw_if_invalid_bounds (lower upper : RDouble) : Except EvalError Unit :=
  if lower.isNaN || upper.isNaN then
    .error (.invalid_input msg_invalid_input zero_return)
  else
    .ok ()

/-- Type of the user-supplied `Callable`: one evaluation either returns
a double or throws. -/
abbrev UserFn : Type := RDouble → Except UserThrow RDouble

/-- Lambda `cleanup` in `guarded_transform`:
`std::fill_n(first, size, 0.)` over the output slots. -/
def cleanup (size : Nat) : List RDouble := List.replicate size (.finD 0)

/-- Lambda `guarded_transform` in the `integrand_callback`: apply
`std::transform` with the user function over one batch of points;
on `std::bad_alloc` rethrow immediately (modelled as `.error ()`);
on any other `std::exception` zero the batch and store the exception in
`e_ptr`; on any other thrown object zero the batch and store
`integration_runtime_error("Unknown error")`; afterwards, if `e_ptr` is
empty and some output is non-finite, zero the batch and store
`integration_runtime_error("non-finite function value")`.
The result is the pair of the output slots and the updated `e_ptr`. -/
def guarded_transform (fn : UserFn) (batch : List RDouble)
    (e_ptr : Option CapturedError) :
    Except Unit (List RDouble × Option CapturedError) :=
  match batch.mapM fn with
  | .error .badAlloc => .error ()
  | .error (.stdExc tag) =>
      .ok (cleanup batch.length, some (.rethrown tag))
  | .error .otherThrow =>
      .ok (cleanup batch.length, some .unknownCapture)
  | .ok vals =>
      if e_ptr.isNone && !(vals.all RDouble.isFinite) then
        .ok (cleanup batch.length, some .nonFiniteCapture)
      else
        .ok (vals, e_ptr)

/-- The kernel invokes `integrand_callback` once per batch; the shared
`e_ptr` slot in `ex` persists across batches.  A `std::bad_alloc`
aborts the kernel call (`.error ()`); otherwise the final state of
`e_ptr` is returned. -/
def run_bridge (fn : UserFn) :
    List (List RDouble) → Option CapturedError →
    Except Unit (Option CapturedError)
| [], e_ptr => .ok e_ptr
| batch :: rest, e_ptr =>
    match guarded_transform fn batch e_ptr with
    | .error _ => .error ()
    | .ok st => run_bridge fn rest st.2

/-- The two kernel entry points: `Rdqags` with the finite bounds, or
`Rdqagi` with a bound and a boundary code `inf`. -/
inductive KernelCall
| finiteCall (lower upper : RDouble)
| infiniteCall (bound : RDouble) (inf : Int)
deriving DecidableEq, Repr

/-- Lambda `translate_bounds` in `integrator::operator()`: boundary
information for `Rdqagi`. -/
def translate_bounds (lower upper : RDouble) : RDouble × Int :=
  if lower.isFinite then (lower, 1)
  else if upper.isFinite then (upper, -1)
  else (.finD 0, 2)

/-- Dispatch of `integrator::operator()`: `Rdqags` when both bounds are
finite, otherwise `Rdqagi` with `translate_bounds`. -/
def dispatch (lower upper : RDouble) : KernelCall :=
  if lower.isFinite && upper.isFinite then
    .finiteCall lower upper
  else
    let bi := translate_bounds lower upper
    .infiniteCall bi.1 bi.2

/-- Observable behaviour of one kernel invocation: the batches of
points at which it calls back into the bridge, and the five numeric
outputs (`result`, `abserr`, `last`, `neval`, `ier`) it writes. -/
structure KernelOutput where
  batches : List (List RDouble)
  value : RDouble
  absolute_error : RDouble
  subdivisions : Int
  neval : Int
  ier : Int
deriving Repr

/-- The `return_type` assembled from the numeric outputs of the kernel
(the fields of `out` bound to `result`, `abserr`, `last`, `neval`). -/
def outcome_of (kout : KernelOutput) : return_type :=
  ⟨kout.value, kout.absolute_error, kout.subdivisions, kout.neval⟩

/-- The external kernel as an oracle: what happens for a given call. -/
abbrev Kernel : Type := KernelCall → KernelOutput

/-- Lambda `throw_if_error` in `integrator::operator()`: rethrow a
captured callback failure first; otherwise translate a positive status
code; codes `>= 6` reach the defensive `else` branch throwing a plain
`std::logic_error`.  A captured `integration_runtime_error` was built
with the inherited single-argument constructor, so its stored result is
the zeroed `return_type`. -/
def throw_if_error (error_code : Int) (e_ptr : Option CapturedError)
    (result : return_type) : Except EvalError return_type :=
  match e_ptr with
  | some (.rethrown tag) => .error (.user_exception tag)
  | some .unknownCapture =>
      .error (.runtime_err msg_unknown_error zero_return)
  | some .nonFiniteCapture =>
      .error (.runtime_err msg_non_finite zero_return)
  | none =>
    if error_code > 0 then
      if error_code = 1 then
        .error (.max_subdivision msg_max_subdivision result)
      else if error_code = 2 then
        .error (.roundoff msg_roundoff result)
      else if error_code = 3 then
        .error (.bad_integrand msg_bad_integrand result)
      else if error_code = 4 then
        .error (.extrapolation_roundoff msg_extrapolation result)
      else if error_code = 5 then
        .error (.divergence msg_divergence result)
      else
        .error (.std_logic_error msg_defensive)
    else
      .ok result

/-- Body of `integrator::operator()(fn, lower, upper)`, parameterised
by the kernel oracle.  The first component records which kernel entry
point was invoked (`none` when the call failed before reaching the
kernel); the second is the outcome of the call. -/
def integrate_impl (kernel : Kernel) (fn : UserFn) (config : config_type)
    (lower upper : RDouble) :
    Option KernelCall × Except EvalError return_type :=
  match throw_if_invalid_config config with
  | .error e => (none, .error e)
  | .ok _ =>
    match throw_if_invalid_bounds lower upper with
    | .error e => (none, .error e)
    | .ok _ =>
      let call := dispatch lower upper
      let kout := kernel call
      match run_bridge fn kout.batches none with
      | .error _ => (some call, .error .bad_alloc_error)
      | .ok e_ptr => (some call, throw_if_error kout.ier e_ptr (outcome_of kout))

/-- Class `integrator`: owns a `config_type`. -/
structure integrator where
  config_ : config_type
deriving DecidableEq, Repr

/-- Default-constructed `integrator`. -/
def default_integrator : integrator := ⟨default_config⟩

/-- Accessor `integrator::config()`. -/
def integrator.config (self : integrator) : config_type := self.config_

/-- Setter `integrator::config(const config_type &)`:
`config_ = config;`, no validation, `noexcept`. -/
def integrator.set_config (self : integrator) (config : config_type) :
    integrator :=
  { self with config_ := config }

/-- Accessor `integrator::max_subdivisions()`. -/
def integrator.max_subdivisions (self : integrator) : Int :=
  self.config_.max_subdivisions

/-- Setter `integrator::max_subdivisions(int)`:
`config_.max_subdivisions = max_subdivisions;`, no validation,
`noexcept`. -/
def integrator.set_max_subdivisions (self : integrator)
    (max_subdivisions : Int) : integrator :=
  { self with config_ :=
      { self.config_ with max_subdivisions := max_subdivisions } }

/-- Accessor `integrator::relative_accuracy()`. -/
def integrator.relative_accuracy (self : integrator) : RDouble :=
  self.config_.relative_accuracy

/-- Setter `integrator::relative_accuracy(double)`: no validation,
`noexcept`. -/
def integrator.set_relative_accuracy (self : integrator)
    (relative_accuracy : RDouble) : integrator :=
  { self with config_ :=
      { self.config_ with relative_accuracy := relative_accuracy } }

/-- Accessor `integrator::absolute_accuracy()`. -/
def integrator.absolute_accuracy (self : integrator) : RDouble :=
  self.config_.absolute_accuracy

/-- Setter `integrator::absolute_accuracy(double)`: no validation,
`noexcept`. -/
def integrator.set_absolute_accuracy (self : integrator)
    (absolute_accuracy : RDouble) : integrator :=
  { self with config_ :=
      { self.config_ with absolute_accuracy := absolute_accuracy } }

/-- Accessor `integrator::work_size()`. -/
def integrator.work_size (self : integrator) : Int :=
  self.config_.work_size

/-- Setter `integrator::work_size(int)`: no validation, `noexcept`. -/
def integrator.set_work_size (self : integrator) (work_size : Int) :
    integrator :=
  { self with config_ := { self.config_ with work_size := work_size } }

/-- The member call `integrator::operator()` with explicit state
passing: the method is `const` and its body only reads `config_`
(copying the four parameters into locals), so the post-call object is
the receiver itself. -/
def integrator.call (self : integrator) (kernel : Kernel) (fn : UserFn)
    (lower upper : RDouble) :
    (Option KernelCall × Except EvalError return_type) × integrator :=
  (integrate_impl kernel fn self.config_ lower upper, self)

/-- Rethrow arm of `throw_if_error`: the exception obtained from
rethrowing the content of `e_ptr`. -/
def rethrow_of : CapturedError → EvalError
| .rethrown tag => .user_exception tag
| .unknownCapture => .runtime_err msg_unknown_error zero_return
| .nonFiniteCapture => .runtime_err msg_non_finite zero_return

/-- Concrete user function that evaluates without failure. -/
def idFn : UserFn := fun x => .ok x

/-- Concrete user function that throws a `std::exception` (tag 42) at
every point. -/
def throwFn : UserFn := fun _ => .error (.stdExc 42)

/-- Concrete user function that throws `std::bad_alloc` at every
point. -/
def badAllocFn : UserFn := fun _ => .error .badAlloc

/-- Concrete user function throwing a `std::exception` (tag 7) at the
point 0 and returning `+inf` elsewhere. -/
def mixedFn : UserFn :=
  fun x => if x = .finD 0 then .error (.stdExc 7) else .ok .posInf

/-- Concrete user function that returns `+inf` at every point without
throwing. -/
def infFn : UserFn := fun _ => .ok .posInf

/-- Concrete kernel that evaluates nothing and reports success. -/
def kernel_ok : Kernel := fun _ => ⟨[], .finD 1, .finD 0, 1, 21, 0⟩

/-- Concrete kernel that evaluates nothing and reports status code 1
together with nonzero numeric outputs. -/
def kernel_code1 : Kernel := fun _ => ⟨[], .finD 3, .finD 1, 5, 63, 1⟩

/-- Concrete kernel that evaluates nothing and reports the
out-of-range status code 7. -/
def kernel_code7 : Kernel := fun _ => ⟨[], .finD 0, .finD 0, 0, 0, 7⟩

/-- Concrete kernel that evaluates nothing and reports status code 6. -/
def kernel_code6 : Kernel := fun _ => ⟨[], .finD 0, .finD 0, 0, 0, 6⟩

/-- Concrete kernel that evaluates nothing and reports the
out-of-range status code -1. -/
def kernel_neg : Kernel := fun _ => ⟨[], .finD 2, .finD 0, 1, 21, -1⟩

/-- Concrete kernel that evaluates one batch holding the single point 0
and reports success. -/
def kernel_one_batch : Kernel := fun _ => ⟨[[.finD 0]], .finD 0, .finD 0, 1, 21, 0⟩

/-- Concrete kernel that evaluates two one-point batches (points 0 and
1) and reports success. -/
def kernel_two_batch : Kernel :=
  fun _ => ⟨[[.finD 0], [.finD 1]], .finD 0, .finD 0, 1, 21, 0⟩

/-- Concrete configuration violating `max_subdivisions >= 1`. -/
def bad_config : config_type :=
  ⟨0, .finD default_accuracy, .finD default_accuracy, 400⟩

end Integratecpp

namespace Integratecpp

theorem machine_epsilon_eq : machine_epsilon = 1 / 2 ^ 52 := by
  rw [machine_epsilon, Rat.mk_eq_divInt]
  norm_num [Rat.divInt_eq_div]

theorem default_accuracy_eq : default_accuracy = 1 / 2 ^ 13 := by
  rw [default_accuracy, Rat.mk_eq_divInt]
  norm_num [Rat.divInt_eq_div]

/-- The reduced constant equals the source expression
`std::max(50. * std::numeric_limits<double>::epsilon(), 0.5e-28)`. -/
theorem accuracy_threshold_eq :
    accuracy_threshold = max (50 * machine_epsilon) (5 / 10 ^ 29) := by
  rw [accuracy_threshold, machine_epsilon, Rat.mk_eq_divInt, Rat.mk_eq_divInt]
  norm_num [Rat.divInt_eq_div]

/-- The configuration check produces no exception other than
`invalid_input_error("the input is invalid")` with a zeroed result. -/
theorem throw_if_invalid_config_error_shape (config : config_type)
    (e : EvalError)
    (h : throw_if_invalid_config config = .error e) :
    e = .invalid_input msg_invalid_input zero_return := by
  unfold throw_if_invalid_config at h
  split at h
  · simp only [Except.error.injEq] at h
    exact h.symm
  · split at h
    · simp only [Except.error.injEq] at h
      exact h.symm
    · split at h
      · simp only [Except.error.injEq] at h
        exact h.symm
      · simp at h

/-- The bounds check produces no exception other than
`invalid_input_error("the input is invalid")` with a zeroed result. -/
theorem throw_if_invalid_bounds_error_shape (lower upper : RDouble)
    (e : EvalError)
    (h : throw_if_invalid_bounds lower upper = .error e) :
    e = .invalid_input msg_invalid_input zero_return := by
  unfold throw_if_invalid_bounds at h
  split at h
  · simp only [Except.error.injEq] at h
    exact h.symm
  · simp at h

/-- C3: the validity check in `evaluate` fails if and only if the
configuration violates one of the three invariants
(`max_subdivisions >= 1`; not both `absolute_accuracy <= 0` and
`relative_accuracy < max(50 * machine_epsilon, 0.5e-28)`;
`work_size >= 4 * max_subdivisions`), it fails with an invalid-input
logic error, and a failing check makes `evaluate` raise that error
before invoking the kernel (no kernel entry recorded). -/
theorem assert_validity_iff (config : config_type) :
    (throw_if_invalid_config config =
        .error (.invalid_input msg_invalid_input zero_return) ↔
      ¬(1 ≤ config.max_subdivisions ∧
        ¬(RDouble.le config.absolute_accuracy (.finD 0) = true ∧
          RDouble.lt config.relative_accuracy
            (.finD (max (50 * machine_epsilon) (5 / 10 ^ 29))) = true) ∧
        4 * config.max_subdivisions ≤ config.work_size)) ∧
    (∀ (kernel : Kernel) (fn : UserFn) (lower upper : RDouble),
      throw_if_invalid_config config =
        .error (.invalid_input msg_invalid_input zero_return) →
      integrate_impl kernel fn config lower upper =
        (none, .error (.invalid_input msg_invalid_input zero_return))) := by
  constructor
  · rw [← accuracy_threshold_eq]
    unfold throw_if_invalid_config
    split
    · rename_i h1
      exact iff_of_true rfl (fun hc => absurd hc.1 (by omega))
    · rename_i h1
      split
      · rename_i h2
        rw [Bool.and_eq_true] at h2
        exact iff_of_true rfl (fun hc => hc.2.1 ⟨h2.1, h2.2⟩)
      · rename_i h2
        split
        · rename_i h3
          exact iff_of_true rfl (fun hc => absurd hc.2.2 (by omega))
        · rename_i h3
          refine iff_of_false (by simp) (fun hc => ?_)
          refine hc ⟨by omega, fun hboth => ?_, by omega⟩
          exact h2 (by rw [Bool.and_eq_true]; exact hboth)
  · intro kernel fn lower upper h
    unfold integrate_impl
    simp only [h]

/-- Witness for C3 at a concrete violating configuration
(`max_subdivisions = 0`). -/
theorem assert_validity_iff_witness :
    throw_if_invalid_config bad_config =
      .error (.invalid_input msg_invalid_input zero_return) ∧
    integrate_impl kernel_ok idFn bad_config (.finD 0) (.finD 1) =
      (none, .error (.invalid_input msg_invalid_input zero_return)) := by
  have h := assert_validity_iff bad_config
  have h1 : throw_if_invalid_config bad_config =
      .error (.invalid_input msg_invalid_input zero_return) :=
    h.1.mpr (fun hc => absurd hc.1 (by decide))
  exact ⟨h1, h.2 kernel_ok idFn (.finD 0) (.finD 1) h1⟩

/-- C4: with a valid configuration and non-NaN bounds, `evaluate`
invokes exactly the kernel entry chosen by `dispatch`; both bounds
finite select `Rdqags` with the bounds unchanged, otherwise `Rdqagi`
is selected with boundary code and bound given by the precedence
lower-finite before upper-finite before neither-finite. -/
theorem evaluate_dispatch (kernel : Kernel) (fn : UserFn)
    (config : config_type) (lower upper : RDouble)
    (hconfig : throw_if_invalid_config config = .ok ())
    (hl : lower.isNaN = false) (hu : upper.isNaN = false) :
    (integrate_impl kernel fn config lower upper).1 =
      some (dispatch lower upper) ∧
    (lower.isFinite = true → upper.isFinite = true →
      dispatch lower upper = .finiteCall lower upper) ∧
    (lower.isFinite = true → upper.isFinite = false →
      dispatch lower upper = .infiniteCall lower 1) ∧
    (lower.isFinite = false → upper.isFinite = true →
      dispatch lower upper = .infiniteCall upper (-1)) ∧
    (lower.isFinite = false → upper.isFinite = false →
      dispatch lower upper = .infiniteCall (.finD 0) 2) := by
  have hb : throw_if_invalid_bounds lower upper = .ok () := by
    unfold throw_if_invalid_bounds
    rw [hl, hu]
    simp
  refine ⟨?_, ?_, ?_, ?_, ?_⟩
  · unfold integrate_impl
    simp only [hconfig, hb]
    cases hrb : run_bridge fn (kernel (dispatch lower upper)).batches none <;>
      simp [hrb]
  · intro h1 h2
    simp [dispatch, h1, h2]
  · intro h1 h2
    simp [dispatch, translate_bounds, h1, h2]
  · intro h1 h2
    simp [dispatch, translate_bounds, h1, h2]
  · intro h1 h2
    simp [dispatch, translate_bounds, h1, h2]

/-- Witness for C4 at the concrete bounds `(-inf, 1)`. -/
theorem evaluate_dispatch_witness :
    (integrate_impl kernel_ok idFn default_config RDouble.negInf
        (.finD 1)).1 = some (dispatch RDouble.negInf (.finD 1)) ∧
    dispatch RDouble.negInf (.finD 1) =
      KernelCall.infiniteCall (.finD 1) (-1) := by
  have h := evaluate_dispatch kernel_ok idFn default_config RDouble.negInf
    (.finD 1) rfl rfl rfl
  exact ⟨h.1, h.2.2.2.1 rfl rfl⟩

/-- C6: with a valid configuration, a NaN bound makes `evaluate` fail
with the invalid-input logic error before any kernel entry point is
invoked (no kernel entry recorded). -/
theorem evaluate_nan_bounds (kernel : Kernel) (fn : UserFn)
    (config : config_type) (lower upper : RDouble)
    (hconfig : throw_if_invalid_config config = .ok ())
    (h : lower.isNaN = true ∨ upper.isNaN = true) :
    integrate_impl kernel fn config lower upper =
      (none, .error (.invalid_input msg_invalid_input zero_return)) := by
  have hb : throw_if_invalid_bounds lower upper =
      .error (.invalid_input msg_invalid_input zero_return) := by
    unfold throw_if_invalid_bounds
    rcases h with h | h <;> simp [h]
  unfold integrate_impl
  simp only [hconfig, hb]

/-- Witness for C6 at the concrete bounds `(NaN, 1)`. -/
theorem evaluate_nan_bounds_witness :
    integrate_impl kernel_ok idFn default_config RDouble.nan (.finD 1) =
      (none, .error (.invalid_input msg_invalid_input zero_return)) :=
  evaluate_nan_bounds kernel_ok idFn default_config RDouble.nan (.finD 1)
    rfl (Or.inl rfl)

/-- C9: `integrator::operator()` is a const member call: the
post-call object is the receiver, so every configuration accessor
returns the same value before and after the call, and the observable
behaviour of the call is exactly its returned outcome (or raised
error) together with the recorded kernel invocation. -/
theorem call_is_const (self : integrator) (kernel : Kernel) (fn : UserFn)
    (lower upper : RDouble) :
    (self.call kernel fn lower upper).2 = self ∧
    ((self.call kernel fn lower upper).2).config = self.config ∧
    ((self.call kernel fn lower upper).2).max_subdivisions =
      self.max_subdivisions ∧
    ((self.call kernel fn lower upper).2).relative_accuracy =
      self.relative_accuracy ∧
    ((self.call kernel fn lower upper).2).absolute_accuracy =
      self.absolute_accuracy ∧
    ((self.call kernel fn lower upper).2).work_size = self.work_size ∧
    (self.call kernel fn lower upper).1 =
      integrate_impl kernel fn self.config_ lower upper :=
  ⟨rfl, rfl, rfl, rfl, rfl, rfl, rfl⟩

/-- C10: every configuration setter is total (`noexcept`, no
validation) and stores exactly the given value, as the corresponding
accessor returns it unchanged; an invalidity introduced by a setter is
detected only at the next `evaluate` call, which then raises the
invalid-input logic error. -/
theorem setters_unchecked (self : integrator) (config : config_type)
    (n : Int) (r a : RDouble) (w : Int) :
    (self.set_config config).config = config ∧
    (self.set_max_subdivisions n).max_subdivisions = n ∧
    (self.set_relative_accuracy r).relative_accuracy = r ∧
    (self.set_absolute_accuracy a).absolute_accuracy = a ∧
    (self.set_work_size w).work_size = w ∧
    (∀ (other : integrator) (kernel : Kernel) (fn : UserFn)
        (lower upper : RDouble) (e : EvalError),
      throw_if_invalid_config other.config_ = .error e →
      (other.call kernel fn lower upper).1 = (none, .error e)) := by
  refine ⟨rfl, rfl, rfl, rfl, rfl, ?_⟩
  intro other kernel fn lower upper e h
  unfold integrator.call integrate_impl
  simp only [h]

/-- Witness for C10: setting `max_subdivisions` to the invalid value 0
succeeds and is readable back; the following `evaluate` call raises
the invalid-input error. -/
theorem setters_unchecked_witness :
    (default_integrator.set_max_subdivisions 0).max_subdivisions = 0 ∧
    ((default_integrator.set_max_subdivisions 0).call kernel_ok idFn
        (.finD 0) (.finD 1)).1 =
      (none, .error (.invalid_input msg_invalid_input zero_return)) := by
  have h := setters_unchecked default_integrator default_config 0 (.finD 0)
    (.finD 0) 0
  exact ⟨h.2.1, h.2.2.2.2.2 (default_integrator.set_max_subdivisions 0)
    kernel_ok idFn (.finD 0) (.finD 1)
    (.invalid_input msg_invalid_input zero_return) rfl⟩

/-- Rethrowing a captured failure takes priority over every status
code: `throw_if_error` inspects `e_ptr` first. -/
theorem throw_if_error_some (error_code : Int) (c : CapturedError)
    (result : return_type) :
    throw_if_error error_code (some c) result = .error (rethrow_of c) := by
  cases c <;> rfl

/-- Reduction of `integrate_impl` on the kernel path when the bridge
finishes without a propagating allocation failure. -/
theorem integrate_impl_bridge_ok (kernel : Kernel) (fn : UserFn)
    (config : config_type) (lower upper : RDouble)
    (e2 : Option CapturedError)
    (hconfig : throw_if_invalid_config config = .ok ())
    (hl : lower.isNaN = false) (hu : upper.isNaN = false)
    (hrb : run_bridge fn (kernel (dispatch lower upper)).batches none =
      .ok e2) :
    integrate_impl kernel fn config lower upper =
      (some (dispatch lower upper),
        throw_if_error (kernel (dispatch lower upper)).ier e2
          (outcome_of (kernel (dispatch lower upper)))) := by
  have hb : throw_if_invalid_bounds lower upper = .ok () := by
    unfold throw_if_invalid_bounds
    rw [hl, hu]
    simp
  unfold integrate_impl
  simp only [hconfig, hb, hrb]

/-- Reduction of `integrate_impl` on the kernel path when the bridge
propagates an allocation failure. -/
theorem integrate_impl_bridge_bad_alloc (kernel : Kernel) (fn : UserFn)
    (config : config_type) (lower upper : RDouble)
    (hconfig : throw_if_invalid_config config = .ok ())
    (hl : lower.isNaN = false) (hu : upper.isNaN = false)
    (hrb : run_bridge fn (kernel (dispatch lower upper)).batches none =
      .error ()) :
    integrate_impl kernel fn config lower upper =
      (some (dispatch lower upper), .error .bad_alloc_error) := by
  have hb : throw_if_invalid_bounds lower upper = .ok () := by
    unfold throw_if_invalid_bounds
    rw [hl, hu]
    simp
  unfold integrate_impl
  simp only [hconfig, hb, hrb]

/-- Once the deferred-failure slot is occupied, a batch that evaluates
without throwing leaves it occupied. -/
theorem guarded_transform_preserves_some (fn : UserFn)
    (batch : List RDouble) (c : CapturedError)
    (st : List RDouble × Option CapturedError)
    (h : guarded_transform fn batch (some c) = .ok st) :
    st.2.isSome = true := by
  unfold guarded_transform at h
  cases hm : batch.mapM fn with
  | error t =>
      cases t <;> rw [hm] at h <;> simp only [Except.ok.injEq] at h <;>
        first
          | (rw [← h]; rfl)
          | exact absurd h (by simp)
  | ok vals =>
      rw [hm] at h
      simp only [Option.isNone_some, Bool.false_and, Bool.false_eq_true,
        if_false, Except.ok.injEq] at h
      rw [← h]
      rfl

/-- The deferred-failure slot never empties while the bridge runs. -/
theorem run_bridge_preserves_some (fn : UserFn)
    (batches : List (List RDouble)) (c : CapturedError)
    (e2 : Option CapturedError)
    (h : run_bridge fn batches (some c) = .ok e2) :
    e2.isSome = true := by
  induction batches generalizing c with
  | nil =>
      unfold run_bridge at h
      simp only [Except.ok.injEq] at h
      rw [← h]
      rfl
  | cons b rest ih =>
      unfold run_bridge at h
      cases hg : guarded_transform fn b (some c) with
      | error u => rw [hg] at h; simp at h
      | ok st =>
          rw [hg] at h
          dsimp only at h
          have hsome := guarded_transform_preserves_some fn b c st hg
          cases hst : st.2 with
          | none => rw [hst] at hsome; simp at hsome
          | some c2 =>
              rw [hst] at h
              exact ih c2 h

/-- If some batch throws a deferrable exception and the bridge run
completes, the deferred-failure slot ends occupied. -/
theorem run_bridge_failing_batch (fn : UserFn)
    (batches : List (List RDouble)) (b : List RDouble) (t : UserThrow)
    (hmem : b ∈ batches) (hm : b.mapM fn = .error t)
    (ht : t ≠ .badAlloc) (e0 e2 : Option CapturedError)
    (h : run_bridge fn batches e0 = .ok e2) :
    e2.isSome = true := by
  induction batches generalizing e0 with
  | nil => exact absurd hmem (List.not_mem_nil b)
  | cons hd rest ih =>
      unfold run_bridge at h
      cases hg : guarded_transform fn hd e0 with
      | error u => rw [hg] at h; simp at h
      | ok st =>
          rw [hg] at h
          dsimp only at h
          rcases List.mem_cons.mp hmem with hb | hb
          · subst hb
            have hst : st.2.isSome = true := by
              unfold guarded_transform at hg
              rw [hm] at hg
              cases t with
              | stdExc tag =>
                  simp only [Except.ok.injEq] at hg
                  rw [← hg]
                  rfl
              | badAlloc => exact absurd rfl ht
              | otherThrow =>
                  simp only [Except.ok.injEq] at hg
                  rw [← hg]
                  rfl
            cases hc : st.2 with
            | none => rw [hc] at hst; simp at hst
            | some c2 =>
                rw [hc] at h
                exact run_bridge_preserves_some fn rest c2 e2 h
          · exact ih hb st.2 h

/-- C1 (amended): a batch at which the user function throws a
`std::exception` other than `std::bad_alloc`, or any non-standard
object, has all its output slots reset to zero and the failure
captured in `e_ptr`; when the bridge ends with a captured failure,
`evaluate` re-raises it with priority over every status code; and
whenever the user function throws a deferrable exception at an
evaluated point, `evaluate` never returns a successful outcome.
(A `std::bad_alloc`, by contrast, propagates immediately.) -/
theorem evaluate_rethrows_user_error (kernel : Kernel) (fn : UserFn)
    (config : config_type) (lower upper : RDouble)
    (hconfig : throw_if_invalid_config config = .ok ())
    (hl : lower.isNaN = false) (hu : upper.isNaN = false) :
    (∀ (batch : List RDouble) (e0 : Option CapturedError) (tag : Nat),
      batch.mapM fn = .error (.stdExc tag) →
      guarded_transform fn batch e0 =
        .ok (cleanup batch.length, some (.rethrown tag))) ∧
    (∀ (batch : List RDouble) (e0 : Option CapturedError),
      batch.mapM fn = .error .otherThrow →
      guarded_transform fn batch e0 =
        .ok (cleanup batch.length, some .unknownCapture)) ∧
    (∀ (c : CapturedError),
      run_bridge fn (kernel (dispatch lower upper)).batches none =
        .ok (some c) →
      (integrate_impl kernel fn config lower upper).2 =
        .error (rethrow_of c)) ∧
    (∀ (b : List RDouble) (t : UserThrow),
      b ∈ (kernel (dispatch lower upper)).batches →
      b.mapM fn = .error t → t ≠ .badAlloc →
      ∀ (r : return_type),
        (integrate_impl kernel fn config lower upper).2 ≠ .ok r) := by
  refine ⟨?_, ?_, ?_, ?_⟩
  · intro batch e0 tag hm
    unfold guarded_transform
    rw [hm]
  · intro batch e0 hm
    unfold guarded_transform
    rw [hm]
  · intro c hrb
    rw [integrate_impl_bridge_ok kernel fn config lower upper (some c)
      hconfig hl hu hrb]
    exact throw_if_error_some _ c _
  · intro b t hmem hm ht r
    cases hrb : run_bridge fn (kernel (dispatch lower upper)).batches none with
    | error u =>
        cases u
        rw [integrate_impl_bridge_bad_alloc kernel fn config lower upper
          hconfig hl hu hrb]
        simp
    | ok e2 =>
        have hsome := run_bridge_failing_batch fn _ b t hmem hm ht none e2 hrb
        cases he : e2 with
        | none => rw [he] at hsome; simp at hsome
        | some c =>
            rw [he] at hrb
            rw [integrate_impl_bridge_ok kernel fn config lower upper
              (some c) hconfig hl hu hrb]
            rw [throw_if_error_some]
            simp

/-- Witness for C1 at a concrete throwing user function: the batch is
zeroed, the exception captured, and `evaluate` re-raises it. -/
theorem evaluate_rethrows_user_error_witness :
    guarded_transform throwFn [.finD 0] none =
      .ok (cleanup 1, some (.rethrown 42)) ∧
    (integrate_impl kernel_one_batch throwFn default_config (.finD 0)
        (.finD 1)).2 = .error (.user_exception 42) := by
  have h := evaluate_rethrows_user_error kernel_one_batch throwFn
    default_config (.finD 0) (.finD 1) rfl rfl rfl
  exact ⟨h.1 [.finD 0] none 42 rfl, h.2.2.1 (.rethrown 42) rfl⟩

/-- Counterexample to C1 as stated: a `std::bad_alloc` thrown by the
user function is not captured by the callback bridge (no zeroed batch,
no deferred-failure slot) but propagates across the kernel boundary
immediately. -/
theorem bad_alloc_propagates_counterexample :
    guarded_transform badAllocFn [.finD 0] none = .error () ∧
    (integrate_impl kernel_one_batch badAllocFn default_config (.finD 0)
        (.finD 1)).2 = .error .bad_alloc_error :=
  ⟨rfl, rfl⟩

/-- A batch that evaluates without throwing leaves an occupied slot
unchanged and its outputs untouched. -/
theorem guarded_transform_ok_some (fn : UserFn) (batch : List RDouble)
    (vals : List RDouble) (c : CapturedError)
    (hm : batch.mapM fn = .ok vals) :
    guarded_transform fn batch (some c) = .ok (vals, some c) := by
  unfold guarded_transform
  rw [hm]
  simp

/-- If no batch throws, the bridge keeps an occupied slot unchanged. -/
theorem run_bridge_no_throw_keeps (fn : UserFn)
    (batches : List (List RDouble)) (c : CapturedError)
    (hok : ∀ b ∈ batches, ∃ vals, b.mapM fn = .ok vals) :
    run_bridge fn batches (some c) = .ok (some c) := by
  induction batches with
  | nil => rfl
  | cons hd rest ih =>
      obtain ⟨vals, hv⟩ := hok hd (List.mem_cons_self hd rest)
      unfold run_bridge
      rw [guarded_transform_ok_some fn hd vals c hv]
      exact ih (fun b hb => hok b (List.mem_cons_of_mem hd hb))

/-- If no batch throws and some batch produces a non-finite value, the
bridge ends with the captured non-finite runtime error. -/
theorem run_bridge_nonfinite (fn : UserFn)
    (batches : List (List RDouble))
    (hok : ∀ b ∈ batches, ∃ vals, b.mapM fn = .ok vals)
    (hnf : ∃ b ∈ batches, ∃ vals, b.mapM fn = .ok vals ∧
      vals.all RDouble.isFinite = false) :
    run_bridge fn batches none = .ok (some .nonFiniteCapture) := by
  induction batches with
  | nil =>
      rcases hnf with ⟨b, hb, _⟩
      exact absurd hb (List.not_mem_nil b)
  | cons hd rest ih =>
      obtain ⟨vals, hv⟩ := hok hd (List.mem_cons_self hd rest)
      by_cases hfin : vals.all RDouble.isFinite = true
      · have hg : guarded_transform fn hd none = .ok (vals, none) := by
          unfold guarded_transform
          rw [hv]
          simp [hfin]
        unfold run_bridge
        rw [hg]
        refine ih (fun b hb => hok b (List.mem_cons_of_mem hd hb)) ?_
        rcases hnf with ⟨b, hb, vals2, hv2, hnf2⟩
        rcases List.mem_cons.mp hb with hbh | hbr
        · subst hbh
          rw [hv] at hv2
          simp only [Except.ok.injEq] at hv2
          rw [hv2] at hfin
          rw [hfin] at hnf2
          simp at hnf2
        · exact ⟨b, hbr, vals2, hv2, hnf2⟩
      · have hfin2 : vals.all RDouble.isFinite = false :=
          Bool.not_eq_true _ ▸ Bool.of_not_eq_true hfin
        have hg : guarded_transform fn hd none =
            .ok (cleanup hd.length, some .nonFiniteCapture) := by
          unfold guarded_transform
          rw [hv]
          simp [hfin2]
        unfold run_bridge
        rw [hg]
        exact run_bridge_no_throw_keeps fn rest .nonFiniteCapture
          (fun b hb => hok b (List.mem_cons_of_mem hd hb))

/-- C5 (amended): if the user function never throws at an evaluated
point and returns a non-finite value at some evaluated point, then the
first batch with a non-finite value has its output slots reset to zero
and the non-finite runtime error is captured, and `evaluate` fails
with the runtime error whose message is "non-finite function value"
(carrying the zeroed result stored at capture time). -/
theorem evaluate_nonfinite (kernel : Kernel) (fn : UserFn)
    (config : config_type) (lower upper : RDouble)
    (hconfig : throw_if_invalid_config config = .ok ())
    (hl : lower.isNaN = false) (hu : upper.isNaN = false)
    (hok : ∀ b ∈ (kernel (dispatch lower upper)).batches,
      ∃ vals, b.mapM fn = .ok vals)
    (hnf : ∃ b ∈ (kernel (dispatch lower upper)).batches,
      ∃ vals, b.mapM fn = .ok vals ∧ vals.all RDouble.isFinite = false) :
    (integrate_impl kernel fn config lower upper).2 =
      .error (.runtime_err msg_non_finite zero_return) ∧
    (∀ (b : List RDouble) (vals : List RDouble),
      b.mapM fn = .ok vals → vals.all RDouble.isFinite = false →
      guarded_transform fn b none =
        .ok (cleanup b.length, some .nonFiniteCapture)) := by
  constructor
  · have hrb := run_bridge_nonfinite fn _ hok hnf
    rw [integrate_impl_bridge_ok kernel fn config lower upper
      (some .nonFiniteCapture) hconfig hl hu hrb]
    rfl
  · intro b vals hm hfin
    unfold guarded_transform
    rw [hm]
    simp [hfin]

/-- Witness for C5 at a concrete user function returning `+inf`. -/
theorem evaluate_nonfinite_witness :
    (integrate_impl kernel_one_batch infFn default_config (.finD 0)
        (.finD 1)).2 = .error (.runtime_err msg_non_finite zero_return) ∧
    guarded_transform infFn [.finD 0] none =
      .ok (cleanup 1, some .nonFiniteCapture) := by
  have h := evaluate_nonfinite kernel_one_batch infFn default_config
    (.finD 0) (.finD 1) rfl rfl rfl
    (by
      intro b hb
      simp only [kernel_one_batch, List.mem_singleton] at hb
      subst hb
      exact ⟨[.posInf], rfl⟩)
    ⟨[.finD 0], by simp [kernel_one_batch], [.posInf], rfl, rfl⟩
  exact ⟨h.1, h.2 [.finD 0] [.posInf] rfl rfl⟩

/-- Counterexample to C5 as stated: once an earlier batch has thrown,
a later batch in which no exception is raised but a non-finite value
is returned is neither zeroed nor recorded (the non-finite check only
fires on an empty slot), and `evaluate` fails with the earlier user
exception instead of a non-finite runtime error. -/
theorem nonfinite_after_throw_counterexample :
    [(RDouble.finD 1)].mapM mixedFn = .ok [RDouble.posInf] ∧
    guarded_transform mixedFn [.finD 1] (some (.rethrown 7)) =
      .ok ([RDouble.posInf], some (.rethrown 7)) ∧
    (integrate_impl kernel_two_batch mixedFn default_config (.finD 0)
        (.finD 2)).2 = .error (.user_exception 7) :=
  ⟨rfl, rfl, rfl⟩

/-- C2 (amended): with no captured callback failure, status codes 1-5
raise the typed runtime errors of the table, each carrying the outcome
assembled from the numeric outputs of the kernel; status code 6 falls
into the defensive branch and raises a plain `std::logic_error`, which
is outside the typed hierarchy and carries no outcome. -/
theorem status_code_translation (kernel : Kernel) (fn : UserFn)
    (config : config_type) (lower upper : RDouble)
    (hconfig : throw_if_invalid_config config = .ok ())
    (hl : lower.isNaN = false) (hu : upper.isNaN = false)
    (hrb : run_bridge fn (kernel (dispatch lower upper)).batches none =
      .ok none) :
    ((kernel (dispatch lower upper)).ier = 1 →
      (integrate_impl kernel fn config lower upper).2 =
        .error (.max_subdivision msg_max_subdivision
          (outcome_of (kernel (dispatch lower upper))))) ∧
    ((kernel (dispatch lower upper)).ier = 2 →
      (integrate_impl kernel fn config lower upper).2 =
        .error (.roundoff msg_roundoff
          (outcome_of (kernel (dispatch lower upper))))) ∧
    ((kernel (dispatch lower upper)).ier = 3 →
      (integrate_impl kernel fn config lower upper).2 =
        .error (.bad_integrand msg_bad_integrand
          (outcome_of (kernel (dispatch lower upper))))) ∧
    ((kernel (dispatch lower upper)).ier = 4 →
      (integrate_impl kernel fn config lower upper).2 =
        .error (.extrapolation_roundoff msg_extrapolation
          (outcome_of (kernel (dispatch lower upper))))) ∧
    ((kernel (dispatch lower upper)).ier = 5 →
      (integrate_impl kernel fn config lower upper).2 =
        .error (.divergence msg_divergence
          (outcome_of (kernel (dispatch lower upper))))) ∧
    ((kernel (dispatch lower upper)).ier = 6 →
      (integrate_impl kernel fn config lower upper).2 =
        .error (.std_logic_error msg_defensive) ∧
      result_of (.std_logic_error msg_defensive) = none) := by
  have himpl := integrate_impl_bridge_ok kernel fn config lower upper none
    hconfig hl hu hrb
  refine ⟨?_, ?_, ?_, ?_, ?_, ?_⟩ <;> intro hier <;> rw [himpl] <;>
    simp only [hier] <;>
    first
      | rfl
      | exact ⟨rfl, rfl⟩

/-- Witness for C2 at concrete kernels reporting codes 1 and 6. -/
theorem status_code_translation_witness :
    (integrate_impl kernel_code1 idFn default_config (.finD 0)
        (.finD 1)).2 =
      .error (.max_subdivision msg_max_subdivision
        ⟨.finD 3, .finD 1, 5, 63⟩) ∧
    (integrate_impl kernel_code6 idFn default_config (.finD 0)
        (.finD 1)).2 = .error (.std_logic_error msg_defensive) := by
  have h1 := status_code_translation kernel_code1 idFn default_config
    (.finD 0) (.finD 1) rfl rfl rfl rfl
  have h6 := status_code_translation kernel_code6 idFn default_config
    (.finD 0) (.finD 1) rfl rfl rfl rfl
  exact ⟨h1.1 rfl, (h6.2.2.2.2.2 rfl).1⟩

/-- Counterexample to C2 as stated: a kernel status code 6 with no
captured failure does not raise the invalid-input logic error of the
table; it reaches the defensive branch, raising a plain
`std::logic_error` that carries no outcome. -/
theorem code6_counterexample :
    (integrate_impl kernel_code6 idFn default_config (.finD 0)
        (.finD 1)).2 = .error (.std_logic_error msg_defensive) ∧
    result_of (.std_logic_error msg_defensive) = none :=
  ⟨rfl, rfl⟩

/-- C7 (amended): with no captured callback failure, a status code
greater than 6 fails loudly with a plain `std::logic_error`, which is
distinguishable from the typed hierarchy and carries no outcome; a
negative status code, however, is not detected: `throw_if_error` only
tests `error_code > 0`, so `evaluate` silently returns a successful
outcome. -/
theorem out_of_range_codes (kernel : Kernel) (fn : UserFn)
    (config : config_type) (lower upper : RDouble)
    (hconfig : throw_if_invalid_config config = .ok ())
    (hl : lower.isNaN = false) (hu : upper.isNaN = false)
    (hrb : run_bridge fn (kernel (dispatch lower upper)).batches none =
      .ok none) :
    (6 < (kernel (dispatch lower upper)).ier →
      (integrate_impl kernel fn config lower upper).2 =
        .error (.std_logic_error msg_defensive) ∧
      result_of (.std_logic_error msg_defensive) = none) ∧
    ((kernel (dispatch lower upper)).ier < 0 →
      (integrate_impl kernel fn config lower upper).2 =
        .ok (outcome_of (kernel (dispatch lower upper)))) := by
  have himpl := integrate_impl_bridge_ok kernel fn config lower upper none
    hconfig hl hu hrb
  constructor
  · intro h
    rw [himpl]
    refine ⟨?_, rfl⟩
    show throw_if_error _ none _ = _
    simp only [throw_if_error]
    rw [if_pos (by omega), if_neg (by omega), if_neg (by omega),
      if_neg (by omega), if_neg (by omega), if_neg (by omega)]
  · intro h
    rw [himpl]
    show throw_if_error _ none _ = _
    simp only [throw_if_error]
    rw [if_neg (by omega)]

/-- Witness for C7 at concrete kernels reporting codes 7 and -1. -/
theorem out_of_range_codes_witness :
    (integrate_impl kernel_code7 idFn default_config (.finD 0)
        (.finD 1)).2 = .error (.std_logic_error msg_defensive) ∧
    (integrate_impl kernel_neg idFn default_config (.finD 0)
        (.finD 1)).2 =
      .ok (outcome_of (kernel_neg (dispatch (.finD 0) (.finD 1)))) := by
  have h7 := out_of_range_codes kernel_code7 idFn default_config (.finD 0)
    (.finD 1) rfl rfl rfl rfl
  have hn := out_of_range_codes kernel_neg idFn default_config (.finD 0)
    (.finD 1) rfl rfl rfl rfl
  exact ⟨(h7.1 (by decide)).1, hn.2 (by decide)⟩

/-- Counterexample to C7 as stated: the negative status code -1 is
outside the documented range 0-6 yet, with no captured failure,
`evaluate` silently returns a successful outcome instead of failing
loudly. -/
theorem negative_code_counterexample :
    (integrate_impl kernel_neg idFn default_config (.finD 0)
        (.finD 1)).2 = .ok ⟨.finD 2, .finD 0, 1, 21⟩ :=
  rfl

/-- C8 (amended): every error of the `integratecpp` hierarchy raised
by `evaluate` carries a result retrievable through `result()`; the
five typed status errors carry the outcome assembled from the numeric
outputs of the kernel, while the invalid-input logic error (raised
before the kernel call) and a captured bridge runtime error (created
at capture time inside the callback) carry the zeroed outcome.
Rethrown user exceptions, propagated `std::bad_alloc`, and the
defensive plain `std::logic_error` expose no `result()` accessor. -/
theorem error_result_accessor (kernel : Kernel) (fn : UserFn)
    (config : config_type) (lower upper : RDouble) (e : EvalError)
    (h : (integrate_impl kernel fn config lower upper).2 = .error e) :
    (match e with
     | .invalid_input _ r =>
        r = zero_return ∧ result_of e = some zero_return
     | .runtime_err _ r =>
        r = zero_return ∧ result_of e = some zero_return
     | .max_subdivision _ r =>
        r = outcome_of (kernel (dispatch lower upper)) ∧
          result_of e = some r
     | .roundoff _ r =>
        r = outcome_of (kernel (dispatch lower upper)) ∧
          result_of e = some r
     | .bad_integrand _ r =>
        r = outcome_of (kernel (dispatch lower upper)) ∧
          result_of e = some r
     | .extrapolation_roundoff _ r =>
        r = outcome_of (kernel (dispatch lower upper)) ∧
          result_of e = some r
     | .divergence _ r =>
        r = outcome_of (kernel (dispatch lower upper)) ∧
          result_of e = some r
     | .user_exception _ => result_of e = none
     | .std_logic_error _ => result_of e = none
     | .bad_alloc_error => result_of e = none) := by
  unfold integrate_impl at h
  cases hc : throw_if_invalid_config config with
  | error e1 =>
      rw [hc] at h
      dsimp only at h
      simp only [Except.error.injEq] at h
      subst h
      have hshape := throw_if_invalid_config_error_shape config e1 hc
      subst hshape
      exact ⟨rfl, rfl⟩
  | ok u =>
      cases u
      rw [hc] at h
      dsimp only at h
      cases hb2 : throw_if_invalid_bounds lower upper with
      | error e1 =>
          rw [hb2] at h
          dsimp only at h
          simp only [Except.error.injEq] at h
          subst h
          have hshape := throw_if_invalid_bounds_error_shape lower upper e1
            hb2
          subst hshape
          exact ⟨rfl, rfl⟩
      | ok u2 =>
          cases u2
          rw [hb2] at h
          dsimp only at h
          cases hrb : run_bridge fn (kernel (dispatch lower upper)).batches
              none with
          | error u3 =>
              cases u3
              rw [hrb] at h
              dsimp only at h
              simp only [Except.error.injEq] at h
              subst h
              rfl
          | ok e2 =>
              rw [hrb] at h
              dsimp only at h
              cases e2 with
              | some c =>
                  rw [throw_if_error_some] at h
                  simp only [Except.error.injEq] at h
                  subst h
                  cases c
                  · rfl
                  · exact ⟨rfl, rfl⟩
                  · exact ⟨rfl, rfl⟩
              | none =>
                  simp only [throw_if_error] at h
                  repeat' split at h
                  all_goals
                    first
                      | (simp only [Except.error.injEq] at h
                         subst h
                         first
                           | rfl
                           | exact ⟨rfl, rfl⟩)
                      | simp at h

/-- Witness for C8: applying the accessor characterisation to the
concrete rethrown-user-exception run shows the raised error exposes no
result. -/
theorem error_result_accessor_witness :
    result_of (.user_exception 42) = none :=
  error_result_accessor kernel_one_batch throwFn default_config (.finD 0)
    (.finD 1) (.user_exception 42) rfl

/-- Counterexample to C8 as stated: the error raised for a throwing
user function is the rethrown user exception, which carries no
outcome snapshot and has no `result()` accessor. -/
theorem error_result_counterexample :
    (integrate_impl kernel_one_batch throwFn default_config (.finD 0)
        (.finD 1)).2 = .error (.user_exception 42) ∧
    result_of (.user_exception 42) = none :=
  ⟨rfl, rfl⟩

end Integratecpp
